import Mathlib

/-
  Verification of the netdog network-configuration synthesis core
  (shallow embedding of src/sources/api/netdog).

  Modules embedded:
    * interface_name.rs   - InterfaceName validation
    * networkd_status.rs  - status decoding, primary-address selection
    * dns.rs              - DnsSettings loading / merging / resolver output
    * cli/update_responder.rs - sysctl application with marker idempotence
-/

/-! ## interface_name.rs -/

/-- Number of bytes a character occupies in UTF-8; this is what Rust's
`String::len` counts (Rust string length is a byte length, not a
character count). -/
def charUtf8Size (c : Char) : Nat :=
  if c.val < 0x80 then 1
  else if c.val < 0x800 then 2
  else if c.val < 0x10000 then 3
  else 4

/-- Rust `input.len()`: the UTF-8 byte length of the string. -/
def rust_len (s : String) : Nat :=
  (s.data.map charUtf8Size).sum

/-- The line terminators listed in `InterfaceName::try_from`
(interface_name.rs lines 26-34). -/
def line_terminators : List Char :=
  ['\n', '\r', '\u000B', '\u000C', '\u0085', ' ', ' ']

/-- Rust `char::is_whitespace`: the Unicode `White_Space` property. -/
def rustIsWhitespace (c : Char) : Bool :=
  c ∈ ['\t', '\n', '\u000B', '\u000C', '\r', ' ', '\u0085', ' ',
       ' ', ' ', ' ', ' ', ' ', ' ', ' ',
       ' ', ' ', ' ', ' ', ' ', ' ', ' ',
       ' ', ' ', '　']

/-- A validated network interface name (interface_name.rs). -/
structure InterfaceName where
  inner : String
deriving DecidableEq

/-- The error enum of interface_name.rs (`error::Error`). -/
inductive IfaceError where
  | InvalidNetworkDeviceName (input : String) (msg : String)
deriving DecidableEq

/-- `TryFrom<String> for InterfaceName` (interface_name.rs lines 19-66):
three `ensure!` checks, in source order. -/
def InterfaceName.try_from (input : String) : Except IfaceError InterfaceName :=
  if input.data.any (fun c => line_terminators.contains c) then
    Except.error (IfaceError.InvalidNetworkDeviceName input ("contains line terminators"))
  else if ¬(rust_len input ≠ 0 ∧ rust_len input ≤ 15) then
    Except.error (IfaceError.InvalidNetworkDeviceName input
      ("invalid length, must be 1 to 15 characters long"))
  else if input.data.any (fun c => c = '.') ∨ input.data.any (fun c => c = '/')
       ∨ input.data.any rustIsWhitespace then
    Except.error (IfaceError.InvalidNetworkDeviceName input ("contains invalid characters"))
  else
    Except.ok ⟨input⟩

deriving instance DecidableEq for Except

/-- A character rejected by the validator: `.`, `/`, whitespace, or a
listed line terminator. -/
def forbiddenChar (c : Char) : Bool :=
  c = '.' || c = '/' || rustIsWhitespace c || line_terminators.contains c

/-! ## networkd_status.rs -/

/-- `std::net::IpAddr`, with octet payloads kept as the byte lists they
were decoded from (4 octets for V4, 16 for V6). -/
inductive IpAddr where
  | v4 (octets : List Nat)
  | v6 (octets : List Nat)
deriving DecidableEq

/-- `IpAddr::is_ipv4`. -/
def IpAddr.is_ipv4 : IpAddr → Bool
  | IpAddr.v4 _ => true
  | IpAddr.v6 _ => false

/-- The error enum of networkd_status.rs (`error::Error`). -/
inductive NetworkdError where
  | NetworkctlExecution
  | FailedNetworkctl (stderr : String)
  | BadIpAddress (input : List Nat) (msg : String)
  | NoIpAddress (interface : InterfaceName)
deriving DecidableEq

/-- One entry of the status report's `DNS` array (`NetworkdDnsConfig`). -/
structure NetworkdDnsConfig where
  family : Nat
  address : IpAddr
  config_source : String
  config_provider : IpAddr
deriving DecidableEq

/-- One entry of the status report's `SearchDomains` array (`SearchDomain`). -/
structure SearchDomain where
  domain : String
  config_source : String
  config_provider : IpAddr
deriving DecidableEq

/-- `NetworkdStatus`: one interface's live snapshot. -/
structure NetworkdStatus where
  name : InterfaceName
  dns : Option (List NetworkdDnsConfig)
  search_domains : Option (List SearchDomain)
  mac_address : List Nat
  addresses : List IpAddr
deriving DecidableEq

/-- `ipaddr_from_vec` (networkd_status.rs lines 56-73): decode a byte
vector into an address purely by its length. -/
def ipaddr_from_vec (address_vec : List Nat) : Except NetworkdError IpAddr :=
  match address_vec.length with
  | 4 => Except.ok (IpAddr.v4 address_vec)
  | 16 => Except.ok (IpAddr.v6 address_vec)
  | _ => Except.error (NetworkdError.BadIpAddress address_vec
      ("invalid length, must be 4 or 16 octets"))

/-- One entry of the status report's `Addresses` array
(`NetworkctlAddress`, local to `from_networkctl_addresses`). -/
structure NetworkctlAddress where
  family : Nat
  address : List Nat
  prefix_length : Nat
  config_source : String
deriving DecidableEq

/-- `from_networkctl_addresses` (networkd_status.rs lines 84-104): decode
every record's `address` bytes via `ipaddr_from_vec`, propagating the
first failure.  The `family` field is deserialized but never consulted. -/
def from_networkctl_addresses :
    List NetworkctlAddress → Except NetworkdError (List IpAddr)
  | [] => Except.ok []
  | addr :: rest => do
    let a ← ipaddr_from_vec addr.address
    let tail ← from_networkctl_addresses rest
    return a :: tail

/-- The `for addr in self.addresses { if addr.is_ipv4() { return Ok(*addr) } }`
loop inside `primary_address`. -/
def first_ipv4 : List IpAddr → Option IpAddr
  | [] => none
  | a :: rest => if a.is_ipv4 then some a else first_ipv4 rest

/-- `NetworkdStatus::primary_address` (networkd_status.rs lines 107-127). -/
def NetworkdStatus.primary_address (self : NetworkdStatus) :
    Except NetworkdError IpAddr :=
  match compare self.addresses.length 1 with
  | Ordering.lt => Except.error (NetworkdError.NoIpAddress self.name)
  | Ordering.eq =>
    match self.addresses.head? with
    | some a => Except.ok a
    | none => Except.error (NetworkdError.NoIpAddress self.name)
  | Ordering.gt =>
    match first_ipv4 self.addresses with
    | some a => Except.ok a
    | none => Except.error (NetworkdError.NoIpAddress self.name)

/-- The captured output of a finished subprocess (`std::process::Output`):
exit-status success flag, stdout, stderr. -/
structure ProcessOutput where
  status_success : Bool
  stdout : String
  stderr : String
deriving DecidableEq

/-- Result of running `get_link_status`: a status, an error, or a panic
(the source calls `.unwrap()`). -/
inductive LinkStatusOutcome where
  | ok (s : NetworkdStatus)
  | err (e : NetworkdError)
  | panicked
deriving DecidableEq

/-- `get_link_status` (networkd_status.rs lines 130-149).  The subprocess
run is modelled by its observable result (`none` when the process could
not be spawned), and `serde_json::from_str` by the `parse_json` argument.
The source calls `.unwrap()` on the parse result, so a parse failure is a
panic, not an error return. -/
def get_link_status (networkctl_result : Option ProcessOutput)
    (parse_json : String → Option NetworkdStatus) : LinkStatusOutcome :=
  match networkctl_result with
  | none => LinkStatusOutcome.err NetworkdError.NetworkctlExecution
  | some out =>
    if out.status_success = false then
      LinkStatusOutcome.err (NetworkdError.FailedNetworkctl out.stderr)
    else
      match parse_json out.stdout with
      | some networkd_status => LinkStatusOutcome.ok networkd_status
      | none => LinkStatusOutcome.panicked

/-! ## dns.rs -/

/-- Lexicographic comparison of octet lists (Rust's derived `Ord` on the
fixed-size octet arrays behind `Ipv4Addr`/`Ipv6Addr`). -/
def natListCompare : List Nat → List Nat → Ordering
  | [], [] => Ordering.eq
  | [], _ :: _ => Ordering.lt
  | _ :: _, [] => Ordering.gt
  | a :: x, b :: y =>
    match compare a b with
    | Ordering.eq => natListCompare x y
    | o => o

/-- Rust's `Ord` on `IpAddr`: every V4 sorts before every V6, then by
octets. -/
def ipCompare : IpAddr → IpAddr → Ordering
  | IpAddr.v4 a, IpAddr.v4 b => natListCompare a b
  | IpAddr.v4 _, IpAddr.v6 _ => Ordering.lt
  | IpAddr.v6 _, IpAddr.v4 _ => Ordering.gt
  | IpAddr.v6 a, IpAddr.v6 b => natListCompare a b

/-- `BTreeSet::insert`: keep the element list sorted, do nothing when an
equal element is already present. -/
def btreeInsert (a : IpAddr) : List IpAddr → List IpAddr
  | [] => [a]
  | b :: rest =>
    match ipCompare a b with
    | Ordering.lt => a :: b :: rest
    | Ordering.eq => b :: rest
    | Ordering.gt => b :: btreeInsert a rest

/-- `collect()` of an iterator of addresses into a `BTreeSet<IpAddr>`,
modelled as the set's sorted, deduplicated element list. -/
def btreeCollect (l : List IpAddr) : List IpAddr :=
  l.foldl (fun acc a => btreeInsert a acc) []

/-- `DnsSettings` (dns.rs lines 19-25).  The `BTreeSet<IpAddr>` of
nameservers is modelled by its element list. -/
structure DnsSettings where
  nameservers : Option (List IpAddr)
  search : Option (List String)
deriving DecidableEq

/-- `LeaseInfo`'s DNS-relevant fields as consumed by `merge_lease`
(dns.rs lines 39-47): an optional nameserver set and an optional ordered
search list. -/
structure LeaseInfo where
  dns_servers : Option (List IpAddr)
  dns_search : Option (List String)
deriving DecidableEq

/-- The error enum of dns.rs (`error::Error`); paths kept as strings. -/
inductive DnsError where
  | DnsConfReadFailed (path : String)
  | DnsConfMeta (path : String)
  | DnsConfParse (path : String)
  | ResolvConfBuildFailed
  | ResolvConfWriteFailed (path : String)
deriving DecidableEq

/-- `DnsSettings::merge_lease` (dns.rs lines 39-47): two independent
fill-if-unset updates. -/
def DnsSettings.merge_lease (self : DnsSettings) (lease : LeaseInfo) :
    DnsSettings :=
  let s1 :=
    if self.nameservers.isNone then
      { self with nameservers := lease.dns_servers }
    else self
  if s1.search.isNone then
    { s1 with search := lease.dns_search }
  else s1

/-- `DnsSettings::merge_status` (dns.rs lines 57-70): fill the nameserver
set from the status's `DNS` records' addresses (collected into a
`BTreeSet`), and the search list from the status's search-domain records,
each only when unset. -/
def DnsSettings.merge_status (self : DnsSettings) (status : NetworkdStatus) :
    DnsSettings :=
  let s1 :=
    if self.nameservers.isNone then
      match status.dns with
      | some dns_nameservers =>
        { self with
          nameservers := some (btreeCollect (dns_nameservers.map (fun n => n.address))) }
      | none => self
    else self
  if s1.search.isNone then
    match status.search_domains with
    | some search_domains =>
      { s1 with search := some (search_domains.map (fun d => d.domain)) }
    | none => s1
  else s1

/-- `DNS_CONFIG` (dns.rs line 17). -/
def dns_config_path : String := "/etc/netdog.toml"

/-- The state of the configuration file on disk: absent, or present with
some contents.  `file_len != 0` in the source is `content ≠ ""` here. -/
inductive FileState where
  | absent
  | present (content : String)
deriving DecidableEq

/-- `DnsSettings::from_config_impl` (dns.rs lines 77-107).  TOML parsing
is modelled by the `parse_toml` argument; an absent or empty file yields
`DnsSettings::default()` (both fields unset), a non-empty file that fails
to parse yields `DnsConfParse`. -/
def DnsSettings.from_config_impl (path : String) (file : FileState)
    (parse_toml : String → Option DnsSettings) : Except DnsError DnsSettings :=
  match file with
  | FileState.absent => Except.ok { nameservers := none, search := none }
  | FileState.present content =>
    if content = "" then Except.ok { nameservers := none, search := none }
    else
      match parse_toml content with
      | some dns_config => Except.ok dns_config
      | none => Except.error (DnsError.DnsConfParse path)

/-- `DnsSettings::from_config_or_lease` (dns.rs lines 30-36), with the
config file's state passed explicitly. -/
def DnsSettings.from_config_or_lease (path : String) (file : FileState)
    (parse_toml : String → Option DnsSettings) (lease : Option LeaseInfo) :
    Except DnsError DnsSettings := do
  let settings ← DnsSettings.from_config_impl path file parse_toml
  match lease with
  | some l => return settings.merge_lease l
  | none => return settings

/-- `DnsSettings::from_config_or_status` (dns.rs lines 51-55), with the
config file's state passed explicitly. -/
def DnsSettings.from_config_or_status (path : String) (file : FileState)
    (parse_toml : String → Option DnsSettings) (status : NetworkdStatus) :
    Except DnsError DnsSettings := do
  let settings ← DnsSettings.from_config_impl path file parse_toml
  return settings.merge_status status

/-- One line of the resolver configuration as emitted by
`write_resolv_conf_impl`: either the fully rendered `search` line, or a
`nameserver` line carrying the address it renders. -/
inductive ResolvEntry where
  | search (text : String)
  | nameserver (addr : IpAddr)
deriving DecidableEq

/-- The element list of the nameserver set, `[]` when unset. -/
def optAddrs (o : Option (List IpAddr)) : List IpAddr :=
  o.getD []

/-- `DnsSettings::write_resolv_conf_impl` (dns.rs lines 115-138), as the
sequence of lines it writes.  The in-place `shuffle(&mut thread_rng())`
of the set's element list is modelled by the `shuffled` argument, an
arbitrary permutation of that list supplied by the random source. -/
def DnsSettings.write_resolv_conf_entries (self : DnsSettings)
    (shuffled : List IpAddr) : List ResolvEntry :=
  (match self.search with
   | some s => [ResolvEntry.search ("search " ++ String.intercalate (" ") s)]
   | none => []) ++
  shuffled.map ResolvEntry.nameserver

/-! ## cli/update_responder.rs -/

/-- The sysctl file contents built by `write_interface_sysctl`
(update_responder.rs lines 65-87). -/
def sysctl_conf_contents (interface : String) : String :=
  "-net.ipv6.conf." ++ interface ++ ".accept_ra = 2\n" ++
  "-net.ipv4.conf." ++ interface ++ ".rp_filter = 2\n"

/-- The error variants of cli's error enum used by the sysctl portion of
`run`. -/
inductive CliError where
  | SystemdSysctlExecution
  | FailedSystemdSysctl (stderr : String)
deriving DecidableEq

/-- Existence of the two on-disk artifacts the sysctl applier keys on:
the sysctl conf file (`PRIMARY_SYSCTL_CONF`) and the marker file
(`SYSCTL_MARKER_FILE`). -/
structure SysctlFiles where
  conf_exists : Bool
  marker_exists : Bool
deriving DecidableEq

/-- Observable side effects of one sysctl-applier invocation: how many
times the conf file was written and how many times `systemd-sysctl` was
invoked. -/
structure SysctlEffects where
  conf_writes : Nat
  sysctl_invocations : Nat
deriving DecidableEq

/-- The sysctl portion of `run` (update_responder.rs lines 37-60): write
the conf file only if it does not exist; invoke `systemd-sysctl` only if
the marker file does not exist, failing on spawn failure
(`sysctl_tool = none`) or non-zero exit (`sysctl_tool = some false`); on
success create the marker (a failed marker write is only logged). -/
def update_responder_sysctl (files : SysctlFiles) (sysctl_tool : Option Bool)
    (tool_stderr : String) (marker_write_ok : Bool) :
    Except CliError (SysctlFiles × SysctlEffects) :=
  let written := if files.conf_exists then (files, 0) else
    ({ files with conf_exists := true }, 1)
  if written.1.marker_exists then
    Except.ok (written.1, ⟨written.2, 0⟩)
  else
    match sysctl_tool with
    | none => Except.error CliError.SystemdSysctlExecution
    | some exit_ok =>
      if exit_ok then
        Except.ok ({ written.1 with marker_exists := marker_write_ok },
          ⟨written.2, 1⟩)
      else
        Except.error (CliError.FailedSystemdSysctl tool_stderr)

/-! ## Theorems -/

/-- Each character needs at least one UTF-8 byte. -/
theorem one_le_charUtf8Size (c : Char) : 1 ≤ charUtf8Size c := by
  unfold charUtf8Size
  split
  · exact Nat.le_refl 1
  · split
    · omega
    · split <;> omega

/-- The character count of a string never exceeds its UTF-8 byte length. -/
theorem length_le_rust_len (s : String) : s.length ≤ rust_len s := by
  show s.data.length ≤ (s.data.map charUtf8Size).sum
  induction s.data with
  | nil => simp
  | cons c cs ih =>
    simp only [List.length_cons, List.map_cons, List.sum_cons]
    have := one_le_charUtf8Size c
    omega

/-- Closed form of `ipaddr_from_vec` as a length test. -/
theorem ipaddr_from_vec_eq_def (l : List Nat) :
    ipaddr_from_vec l =
      if l.length = 4 then Except.ok (IpAddr.v4 l)
      else if l.length = 16 then Except.ok (IpAddr.v6 l)
      else Except.error (NetworkdError.BadIpAddress l
        ("invalid length, must be 4 or 16 octets")) := by
  unfold ipaddr_from_vec
  split
  · rename_i heq
    simp [heq]
  · rename_i heq
    simp [heq]
  · rename_i h1 h2
    have h1' : l.length ≠ 4 := fun h => h1 h
    have h2' : l.length ≠ 16 := fun h => h2 h
    rw [if_neg h1', if_neg h2']

/-- C5: byte-to-address decoding returns an IPv4 address exactly for
4-octet inputs, an IPv6 address exactly for 16-octet inputs, and fails
with `BadIpAddress` (carrying the bytes and a reason) for every other
length. -/
theorem ipaddr_from_vec_spec (l : List Nat) :
    ((∃ a, ipaddr_from_vec l = Except.ok a ∧ a.is_ipv4 = true) ↔ l.length = 4)
  ∧ ((∃ a, ipaddr_from_vec l = Except.ok a ∧ a.is_ipv4 = false) ↔ l.length = 16)
  ∧ (l.length ≠ 4 → l.length ≠ 16 →
      ipaddr_from_vec l = Except.error (NetworkdError.BadIpAddress l
        ("invalid length, must be 4 or 16 octets"))) := by
  rw [ipaddr_from_vec_eq_def]
  by_cases h4 : l.length = 4
  · simp [h4, IpAddr.is_ipv4]
  · by_cases h16 : l.length = 16
    · simp [h4, h16, IpAddr.is_ipv4]
    · simp [h4, h16]

/-- Witness for C5 at concrete inputs of length 4, 16 and 3. -/
theorem ipaddr_from_vec_spec_witness :
    (∃ a, ipaddr_from_vec [192, 168, 0, 2] = Except.ok a ∧ a.is_ipv4 = true)
  ∧ (∃ a, ipaddr_from_vec (List.replicate 16 0) = Except.ok a ∧ a.is_ipv4 = false)
  ∧ ipaddr_from_vec [1, 2, 3] = Except.error (NetworkdError.BadIpAddress [1, 2, 3]
      ("invalid length, must be 4 or 16 octets")) :=
  ⟨(ipaddr_from_vec_spec [192, 168, 0, 2]).1.mpr (by decide),
   (ipaddr_from_vec_spec (List.replicate 16 0)).2.1.mpr (by decide),
   (ipaddr_from_vec_spec [1, 2, 3]).2.2 (by decide) (by decide)⟩

/-- Mapping any constant over the `family` tags leaves the decoding of a
status report's address array unchanged: the decoder never reads the tag. -/
theorem from_networkctl_addresses_map_family (records : List NetworkctlAddress)
    (f : Nat) :
    from_networkctl_addresses (records.map (fun r => { r with family := f })) =
      from_networkctl_addresses records := by
  induction records with
  | nil => rfl
  | cons r rest ih =>
    simp only [List.map_cons, from_networkctl_addresses, ih]

/-- The address-array decoder succeeds exactly when every record's
payload has length 4 or 16, independent of the family tags. -/
theorem from_networkctl_addresses_ok_iff (records : List NetworkctlAddress) :
    (∃ out, from_networkctl_addresses records = Except.ok out) ↔
      ∀ r ∈ records, r.address.length = 4 ∨ r.address.length = 16 := by
  induction records with
  | nil => simp [from_networkctl_addresses]
  | cons r rest ih =>
    by_cases hlen : r.address.length = 4 ∨ r.address.length = 16
    · have hhead : ∃ a, ipaddr_from_vec r.address = Except.ok a := by
        rcases hlen with h | h
        · exact ⟨IpAddr.v4 r.address, by rw [ipaddr_from_vec_eq_def, if_pos h]⟩
        · refine ⟨IpAddr.v6 r.address, ?_⟩
          rw [ipaddr_from_vec_eq_def, if_neg (by omega), if_pos h]
      obtain ⟨a, ha⟩ := hhead
      constructor
      · rintro ⟨out, hout⟩ r' hr'
        rcases List.mem_cons.mp hr' with h | h
        · subst h
          exact hlen
        · refine (ih.mp ?_) r' h
          rcases hrec : from_networkctl_addresses rest with e | t
          · exfalso
            simp only [from_networkctl_addresses, ha, hrec, Bind.bind,
              Except.bind] at hout
            exact Except.noConfusion hout
          · exact ⟨t, rfl⟩
      · intro hall
        obtain ⟨t, ht⟩ := ih.mpr (fun r' h => hall r' (List.mem_cons_of_mem _ h))
        refine ⟨a :: t, ?_⟩
        simp only [from_networkctl_addresses, ha, ht, Bind.bind, Except.bind,
          pure, Except.pure]
    · have hhead : ipaddr_from_vec r.address =
          Except.error (NetworkdError.BadIpAddress r.address
            ("invalid length, must be 4 or 16 octets")) := by
        push_neg at hlen
        rw [ipaddr_from_vec_eq_def, if_neg hlen.1, if_neg hlen.2]
      constructor
      · rintro ⟨out, hout⟩
        exfalso
        simp only [from_networkctl_addresses, hhead, Bind.bind, Except.bind] at hout
        exact Except.noConfusion hout
      · intro hall
        exact absurd (hall r (List.mem_cons_self r rest)) hlen

/-- C3 counterexample: a record whose family tag is 10 (the IPv6 family
value) but whose payload is 4 bytes decodes successfully to an IPv4
address, instead of being a decode error as the claim states. -/
theorem from_networkctl_addresses_family_mismatch_decodes :
    from_networkctl_addresses [⟨10, [10, 0, 2, 15], 24, "dhcp"⟩] =
      Except.ok [IpAddr.v4 [10, 0, 2, 15]] := rfl

/-- C3 (amended): decoding a status report's interface addresses depends
only on each record's payload length — 4 bytes decodes as IPv4, 16 bytes
as IPv6, any other length is a decode error — and the family tag is
ignored entirely, so a record whose family tag does not match its payload
length still decodes. -/
theorem from_networkctl_addresses_spec (records : List NetworkctlAddress) :
    (∀ f, from_networkctl_addresses (records.map (fun r => { r with family := f })) =
        from_networkctl_addresses records)
  ∧ ((∃ out, from_networkctl_addresses records = Except.ok out) ↔
      ∀ r ∈ records, r.address.length = 4 ∨ r.address.length = 16) :=
  ⟨fun f => from_networkctl_addresses_map_family records f,
   from_networkctl_addresses_ok_iff records⟩

/-- Witness for C3's amended statement on a concrete record list. -/
theorem from_networkctl_addresses_spec_witness :
    ∃ out, from_networkctl_addresses
      [⟨2, [10, 0, 2, 15], 24, "dhcp"⟩, ⟨10, List.replicate 16 0, 64, "static"⟩] =
        Except.ok out :=
  (from_networkctl_addresses_spec
    [⟨2, [10, 0, 2, 15], 24, "dhcp"⟩, ⟨10, List.replicate 16 0, 64, "static"⟩]).2.mpr
    (by decide)

/-- The `primary_address` scan loop returns the first IPv4 address in
list order. -/
theorem first_ipv4_eq_find (l : List IpAddr) :
    first_ipv4 l = l.find? IpAddr.is_ipv4 := by
  induction l with
  | nil => rfl
  | cons a rest ih =>
    by_cases h : a.is_ipv4 <;> simp [first_ipv4, List.find?_cons, h, ih]

/-- C1: primary-address selection — an empty address list fails with
`NoIpAddress`; a singleton list returns its only entry (IPv4 or IPv6);
with more than one entry the first IPv4 address in list order is
returned, or `NoIpAddress` when the list holds no IPv4 address (no IPv6
fallback). -/
theorem primary_address_spec (s : NetworkdStatus) :
    (s.addresses = [] →
      s.primary_address = Except.error (NetworkdError.NoIpAddress s.name))
  ∧ (∀ a, s.addresses = [a] → s.primary_address = Except.ok a)
  ∧ (1 < s.addresses.length →
      s.primary_address =
        match s.addresses.find? IpAddr.is_ipv4 with
        | some a => Except.ok a
        | none => Except.error (NetworkdError.NoIpAddress s.name)) := by
  refine ⟨?_, ?_, ?_⟩
  · intro h
    unfold NetworkdStatus.primary_address
    rw [h]
    rfl
  · intro a h
    unfold NetworkdStatus.primary_address
    rw [h]
    rfl
  · intro h
    unfold NetworkdStatus.primary_address
    have hc : compare s.addresses.length 1 = Ordering.gt := by
      rw [Nat.compare_eq_gt]
      exact h
    rw [hc, first_ipv4_eq_find]

/-- Witness for C1: a three-entry list whose first entry is IPv6 selects
the first IPv4 entry. -/
theorem primary_address_spec_witness :
    NetworkdStatus.primary_address
      ⟨⟨"eno1"⟩, none, none, [82, 84, 0, 255, 18, 52],
        [IpAddr.v6 (List.replicate 16 0), IpAddr.v4 [10, 0, 2, 15],
         IpAddr.v4 [1, 2, 3, 4]]⟩ =
      Except.ok (IpAddr.v4 [10, 0, 2, 15]) := by
  have h := (primary_address_spec
    ⟨⟨"eno1"⟩, none, none, [82, 84, 0, 255, 18, 52],
      [IpAddr.v6 (List.replicate 16 0), IpAddr.v4 [10, 0, 2, 15],
       IpAddr.v4 [1, 2, 3, 4]]⟩).2.2 (by decide)
  rw [h]
  rfl

/-- C2: `merge_lease` and `merge_status` treat the nameserver and search
fields independently — a field set by the static configuration is kept
unchanged (the lease/status value is never used), and an unset field is
taken verbatim from the lease (or derived from the status: the collected
address set of its DNS records, the domain list of its search records),
remaining unset when that source has none. -/
theorem dns_merge_fields_spec (cfg : DnsSettings) (lease : LeaseInfo)
    (status : NetworkdStatus) :
    ((cfg.nameservers ≠ none →
        (cfg.merge_lease lease).nameservers = cfg.nameservers)
   ∧ (cfg.nameservers = none →
        (cfg.merge_lease lease).nameservers = lease.dns_servers)
   ∧ (cfg.search ≠ none → (cfg.merge_lease lease).search = cfg.search)
   ∧ (cfg.search = none → (cfg.merge_lease lease).search = lease.dns_search))
  ∧ ((cfg.nameservers ≠ none →
        (cfg.merge_status status).nameservers = cfg.nameservers)
   ∧ (cfg.nameservers = none →
        (cfg.merge_status status).nameservers =
          status.dns.map (fun ds => btreeCollect (ds.map (fun n => n.address))))
   ∧ (cfg.search ≠ none → (cfg.merge_status status).search = cfg.search)
   ∧ (cfg.search = none →
        (cfg.merge_status status).search =
          status.search_domains.map (fun ds => ds.map (fun d => d.domain)))) := by
  obtain ⟨ns, se⟩ := cfg
  rcases ns with _ | nsv <;> rcases se with _ | sev <;>
    rcases hd : status.dns with _ | dl <;>
      rcases hs : status.search_domains with _ | sl <;>
        simp [DnsSettings.merge_lease, DnsSettings.merge_status, hd, hs]

/-- Witness for C2: a configuration with nameservers set and search unset
keeps its nameservers and takes the lease's search list. -/
theorem dns_merge_fields_spec_witness :
    (DnsSettings.merge_lease ⟨some [IpAddr.v4 [1, 2, 3, 4]], none⟩
        ⟨some [IpAddr.v4 [5, 6, 7, 8]], some ["us-west-2.compute.internal"]⟩).nameservers =
      some [IpAddr.v4 [1, 2, 3, 4]]
  ∧ (DnsSettings.merge_lease ⟨some [IpAddr.v4 [1, 2, 3, 4]], none⟩
        ⟨some [IpAddr.v4 [5, 6, 7, 8]], some ["us-west-2.compute.internal"]⟩).search =
      some ["us-west-2.compute.internal"] := by
  have h := dns_merge_fields_spec ⟨some [IpAddr.v4 [1, 2, 3, 4]], none⟩
    ⟨some [IpAddr.v4 [5, 6, 7, 8]], some ["us-west-2.compute.internal"]⟩
    ⟨⟨"eno1"⟩, none, none, [], []⟩
  exact ⟨h.1.1 (by decide), h.1.2.2.2 rfl⟩

/-- C10: under the same static configuration, `from_config_or_status`
yields equal DNS settings for any two statuses agreeing on their `dns`
and `search_domains` fields — the interface name, MAC address and
assigned-address list never influence the result. -/
theorem from_config_or_status_independent (path : String) (file : FileState)
    (parse_toml : String → Option DnsSettings) (s1 s2 : NetworkdStatus)
    (hdns : s1.dns = s2.dns) (hsd : s1.search_domains = s2.search_domains) :
    DnsSettings.from_config_or_status path file parse_toml s1 =
      DnsSettings.from_config_or_status path file parse_toml s2 := by
  unfold DnsSettings.from_config_or_status
  rcases h : DnsSettings.from_config_impl path file parse_toml with e | cfg <;>
    simp [h, Bind.bind, Except.bind, pure, Except.pure,
      DnsSettings.merge_status, hdns, hsd]

/-- Witness for C10: two statuses with identical DNS data but different
names, MAC addresses and address lists produce the same settings. -/
theorem from_config_or_status_independent_witness :
    DnsSettings.from_config_or_status dns_config_path FileState.absent
        (fun _ => none)
        ⟨⟨"eno1"⟩, some [⟨2, IpAddr.v4 [10, 0, 2, 3], "DHCPv4", IpAddr.v4 [10, 0, 2, 2]⟩],
          none, [1, 2, 3, 4, 5, 6], [IpAddr.v4 [10, 0, 2, 15]]⟩ =
      DnsSettings.from_config_or_status dns_config_path FileState.absent
        (fun _ => none)
        ⟨⟨"eth0"⟩, some [⟨2, IpAddr.v4 [10, 0, 2, 3], "DHCPv4", IpAddr.v4 [10, 0, 2, 2]⟩],
          none, [7, 8, 9, 10, 11, 12], []⟩ :=
  from_config_or_status_independent _ _ _ _ _ rfl rfl

/-- C8: loading the static configuration yields an all-unset
`DnsSettings` (not an error) when the file is absent or empty, a
`DnsConfParse` error when a non-empty file fails to parse, and the parsed
settings otherwise. -/
theorem from_config_impl_spec (path content : String)
    (parse_toml : String → Option DnsSettings) :
    (DnsSettings.from_config_impl path FileState.absent parse_toml =
      Except.ok ⟨none, none⟩)
  ∧ (DnsSettings.from_config_impl path (FileState.present ("")) parse_toml =
      Except.ok ⟨none, none⟩)
  ∧ (content ≠ "" → parse_toml content = none →
      DnsSettings.from_config_impl path (FileState.present content) parse_toml =
        Except.error (DnsError.DnsConfParse path))
  ∧ (∀ d, content ≠ "" → parse_toml content = some d →
      DnsSettings.from_config_impl path (FileState.present content) parse_toml =
        Except.ok d) := by
  refine ⟨rfl, rfl, ?_, ?_⟩
  · intro hne hp
    simp [DnsSettings.from_config_impl, hne, hp]
  · intro d hne hp
    simp [DnsSettings.from_config_impl, hne, hp]

/-- Witness for C8: a non-empty file whose contents fail to parse is a
`DnsConfParse` error. -/
theorem from_config_impl_spec_witness :
    DnsSettings.from_config_impl dns_config_path (FileState.present ("not toml"))
        (fun _ => none) =
      Except.error (DnsError.DnsConfParse dns_config_path) :=
  (from_config_impl_spec dns_config_path ("not toml") (fun _ => none)).2.2.1
    (by decide) rfl

/-- C9: with neither the conf file nor the marker present, one invocation
writes the sysctl file once, invokes the apply tool once, and creates the
marker; a repeat invocation with the marker (and conf file) present
performs no write and no tool invocation and leaves the state unchanged. -/
theorem update_responder_sysctl_spec :
    (∀ stderr, update_responder_sysctl ⟨false, false⟩ (some true) stderr true =
      Except.ok (⟨true, true⟩, ⟨1, 1⟩))
  ∧ (∀ tool stderr marker_ok,
      update_responder_sysctl ⟨true, true⟩ tool stderr marker_ok =
        Except.ok (⟨true, true⟩, ⟨0, 0⟩)) := by
  constructor
  · intro stderr
    rfl
  · intro tool stderr marker_ok
    rfl

/-- C4: `get_link_status` — a spawn failure yields the
`NetworkctlExecution` error kind and a non-zero exit yields
`FailedNetworkctl` capturing stderr, but when the process succeeds and
its output fails to parse the source panics (`serde_json::from_str(..)
.unwrap()`) instead of returning a parse error; no parse-error variant
exists. -/
theorem get_link_status_spec (stdout stderr : String)
    (parse_json : String → Option NetworkdStatus) :
    (get_link_status none parse_json =
      LinkStatusOutcome.err NetworkdError.NetworkctlExecution)
  ∧ (get_link_status (some ⟨false, stdout, stderr⟩) parse_json =
      LinkStatusOutcome.err (NetworkdError.FailedNetworkctl stderr))
  ∧ (get_link_status (some ⟨true, stdout, stderr⟩) parse_json =
      match parse_json stdout with
      | some st => LinkStatusOutcome.ok st
      | none => LinkStatusOutcome.panicked)
  ∧ (get_link_status (some ⟨true, "not json", ""⟩) (fun _ => none) =
      LinkStatusOutcome.panicked) :=
  ⟨rfl, rfl, rfl, rfl⟩

/-- C6: for any run of the resolver writer (whose random shuffle is some
permutation of the nameserver set's elements), the output is exactly one
`search` line — the domains joined by single spaces, in original order —
if and only if the search field is set, followed by one `nameserver` line
per element of the nameserver set (a permutation of the set: no repeated,
missing, or extra entries); with both fields unset the output is empty. -/
theorem write_resolv_conf_spec (s : DnsSettings) (shuffled : List IpAddr)
    (hperm : shuffled.Perm (optAddrs s.nameservers)) :
    (s.search = none → s.nameservers = none →
      s.write_resolv_conf_entries shuffled = [])
  ∧ (∀ dl, s.search = some dl →
      ∃ t, s.write_resolv_conf_entries shuffled =
          ResolvEntry.search ("search " ++ String.intercalate (" ") dl) :: t
        ∧ t.Perm ((optAddrs s.nameservers).map ResolvEntry.nameserver))
  ∧ (s.search = none →
      (s.write_resolv_conf_entries shuffled).Perm
        ((optAddrs s.nameservers).map ResolvEntry.nameserver)) := by
  refine ⟨?_, ?_, ?_⟩
  · intro hse hns
    have h0 : shuffled = [] := by
      rw [hns] at hperm
      exact hperm.eq_nil
    simp [DnsSettings.write_resolv_conf_entries, hse, h0]
  · intro dl hdl
    refine ⟨shuffled.map ResolvEntry.nameserver, ?_, ?_⟩
    · simp [DnsSettings.write_resolv_conf_entries, hdl]
    · exact hperm.map ResolvEntry.nameserver
  · intro hse
    simp only [DnsSettings.write_resolv_conf_entries, hse, List.nil_append]
    exact hperm.map ResolvEntry.nameserver

/-- Witness for C6: two nameservers written in the shuffled order, headed
by the search line. -/
theorem write_resolv_conf_spec_witness :
    ∃ t, DnsSettings.write_resolv_conf_entries
        ⟨some [IpAddr.v4 [1, 2, 3, 4], IpAddr.v4 [2, 3, 4, 5]],
          some ["us-west-2.compute.internal"]⟩
        [IpAddr.v4 [2, 3, 4, 5], IpAddr.v4 [1, 2, 3, 4]] =
        ResolvEntry.search
          ("search " ++ String.intercalate (" ") ["us-west-2.compute.internal"]) :: t
      ∧ t.Perm ((optAddrs (some [IpAddr.v4 [1, 2, 3, 4], IpAddr.v4 [2, 3, 4, 5]])).map
          ResolvEntry.nameserver) :=
  (write_resolv_conf_spec
    ⟨some [IpAddr.v4 [1, 2, 3, 4], IpAddr.v4 [2, 3, 4, 5]],
      some ["us-west-2.compute.internal"]⟩
    [IpAddr.v4 [2, 3, 4, 5], IpAddr.v4 [1, 2, 3, 4]] (by decide)).2.1 _ rfl

/-- C7 (amended): every string of 1 to 15 UTF-8 bytes (the source checks
Rust's byte length, not the character count) containing no `.`, `/`,
whitespace, or listed line terminator is accepted and round-trips to the
identical string; every string that is empty, has 16 or more characters,
has 16 or more UTF-8 bytes, or contains a forbidden character is
rejected. -/
theorem interface_name_spec (s : String) :
    (1 ≤ rust_len s → rust_len s ≤ 15 →
      s.data.all (fun c => !forbiddenChar c) = true →
      InterfaceName.try_from s = Except.ok ⟨s⟩)
  ∧ ((s = "" ∨ 16 ≤ s.length ∨ 16 ≤ rust_len s ∨ s.data.any forbiddenChar = true) →
      ∀ n, InterfaceName.try_from s ≠ Except.ok n) := by
  constructor
  · intro h1 h15 hall
    have hall' : ∀ c ∈ s.data, forbiddenChar c = false := by
      intro c hc
      have h := List.all_eq_true.mp hall c hc
      simpa using h
    have hA : ¬(s.data.any (fun c => line_terminators.contains c) = true) := by
      intro hcon
      obtain ⟨c, hc, hlt⟩ := List.any_eq_true.mp hcon
      have hf := hall' c hc
      simp [forbiddenChar] at hf
      exact hf.2 (by simpa using hlt)
    have hB : rust_len s ≠ 0 ∧ rust_len s ≤ 15 := ⟨by omega, h15⟩
    have hC : ¬(s.data.any (fun c => c = '.') = true
        ∨ s.data.any (fun c => c = '/') = true
        ∨ s.data.any rustIsWhitespace = true) := by
      rintro (hcon | hcon | hcon)
      · obtain ⟨c, hc, hp⟩ := List.any_eq_true.mp hcon
        have hf := hall' c hc
        simp [forbiddenChar] at hf
        exact hf.1.1.1 (by simpa using hp)
      · obtain ⟨c, hc, hp⟩ := List.any_eq_true.mp hcon
        have hf := hall' c hc
        simp [forbiddenChar] at hf
        exact hf.1.1.2 (by simpa using hp)
      · obtain ⟨c, hc, hp⟩ := List.any_eq_true.mp hcon
        have hf := hall' c hc
        simp [forbiddenChar] at hf
        exact absurd hp (by simp [hf.1.2])
    unfold InterfaceName.try_from
    rw [if_neg hA, if_neg (not_not_intro hB), if_neg hC]
  · intro hinv n hok
    unfold InterfaceName.try_from at hok
    by_cases hA : s.data.any (fun c => line_terminators.contains c) = true
    · rw [if_pos hA] at hok
      exact Except.noConfusion hok
    · rw [if_neg hA] at hok
      by_cases hB : rust_len s ≠ 0 ∧ rust_len s ≤ 15
      · rw [if_neg (not_not_intro hB)] at hok
        by_cases hC : s.data.any (fun c => c = '.') = true
            ∨ s.data.any (fun c => c = '/') = true
            ∨ s.data.any rustIsWhitespace = true
        · rw [if_pos hC] at hok
          exact Except.noConfusion hok
        · rw [if_neg hC] at hok
          rcases hinv with h | h | h | h
          · subst h
            exact hB.1 rfl
          · have hlen := length_le_rust_len s
            have h15 := hB.2
            omega
          · have h15 := hB.2
            omega
          · obtain ⟨c, hc, hf⟩ := List.any_eq_true.mp h
            have hf' : ((c = '.' ∨ c = '/') ∨ rustIsWhitespace c = true)
                ∨ c ∈ line_terminators := by
              simpa [forbiddenChar] using hf
            rcases hf' with ((hdot | hslash) | hws) | hlt
            · exact hC (Or.inl (List.any_eq_true.mpr ⟨c, hc, by simp [hdot]⟩))
            · exact hC (Or.inr (Or.inl (List.any_eq_true.mpr ⟨c, hc, by simp [hslash]⟩)))
            · exact hC (Or.inr (Or.inr (List.any_eq_true.mpr ⟨c, hc, hws⟩)))
            · exact hA (List.any_eq_true.mpr ⟨c, hc, by simpa using hlt⟩)
      · rw [if_pos hB] at hok
        exact Except.noConfusion hok

/-- Witness for C7's amended statement: a valid name round-trips and a
name containing whitespace is rejected. -/
theorem interface_name_spec_witness :
    InterfaceName.try_from ("eno1") = Except.ok ⟨"eno1"⟩
  ∧ ∀ n, InterfaceName.try_from ("eno 1") ≠ Except.ok n :=
  ⟨(interface_name_spec ("eno1")).1 (by decide) (by decide) (by decide),
   (interface_name_spec ("eno 1")).2 (Or.inr (Or.inr (Or.inr (by decide))))⟩

/-- C7 counterexample: eight copies of a two-byte character form a string
of 8 characters (within 1 to 15) containing no forbidden character, yet
construction fails, because the source bounds the UTF-8 byte length (16
here), not the character count. -/
theorem interface_name_char_count_counterexample :
    (String.mk (List.replicate 8 'é')).length = 8
  ∧ (String.mk (List.replicate 8 'é')).data.all (fun c => !forbiddenChar c) = true
  ∧ InterfaceName.try_from (String.mk (List.replicate 8 'é')) =
      Except.error (IfaceError.InvalidNetworkDeviceName
        (String.mk (List.replicate 8 'é'))
        ("invalid length, must be 1 to 15 characters long")) :=
  ⟨by decide, by decide, by decide⟩
